import Mathlib

/-!
Verification of the chroma-db-gui query/connection layer.

The TypeScript source is shallowly embedded: JavaScript values appearing in
document metadata become `JSValue`; the singleton `ChromaDBService` state
becomes `ServiceState`; each asynchronous remote call is abstracted as an
explicit oracle argument (the value the awaited call would produce), so that
theorems quantifying over the oracle express independence from remote
behaviour.  JavaScript strings are represented by `String`, and a text passed
to the embedding function by its list of UTF-16 code units (`List Nat`).
-/

/-- A JavaScript runtime value, as found in document metadata. -/
inductive JSValue where
  | str : String → JSValue
  | num : Int → JSValue
  | boolean : Bool → JSValue
  | null : JSValue
  | arr : List JSValue → JSValue
  | obj : List (String × JSValue) → JSValue

/-- JavaScript metadata object: ordered key/value entries. -/
abbrev Metadata := List (String × JSValue)

/-- The JavaScript `typeof` operator restricted to the values above.
Note `typeof null` and `typeof` of an array both yield the string "object". -/
def jsTypeof : JSValue → String
  | .str _ => "string"
  | .num _ => "number"
  | .boolean _ => "boolean"
  | .null => "object"
  | .arr _ => "object"
  | .obj _ => "object"

/-- Whether a value is the JavaScript `null` literal. -/
def JSValue.isNull : JSValue → Bool
  | .null => true
  | _ => false

/-- `ChromaDBService.inferFieldType` (chromadb-client.ts lines 289-296):
`Array.isArray` first, then non-null `typeof === "object"`, then the three
primitive checks, with "string" as the final fallback (reached by `null`). -/
def inferFieldType : JSValue → String
  | .arr _ => "array"
  | .obj _ => "object"
  | .str _ => "string"
  | .num _ => "number"
  | .boolean _ => "boolean"
  | .null => "string"

/-- `ChromaConnection` record (types file). `createdAt` is an abstract clock
value. -/
structure ChromaConnection where
  id : String
  name : String
  host : String
  port : Nat
  connected : Bool
  createdAt : Nat

/-- `Collection` record (types file). -/
structure Collection where
  id : String
  name : String
  count : Nat
  metadata : Option Metadata
  createdAt : Nat

/-- `Document` record (types file); the optional embedding field is never set
by this layer and is omitted. -/
structure Document where
  id : String
  content : String
  metadata : Option Metadata

/-- `QueryResult` record (types file). -/
structure QueryResult where
  id : String
  content : String
  metadata : Option Metadata
  distance : Int

/-- A field of an inferred schema, as pushed by `getCollectionSchema`. -/
structure SchemaField where
  name : String
  type : String
  nullable : Bool
  sample : JSValue

/-- `CollectionSchema` record (types file). -/
structure CollectionSchema where
  name : String
  vectorDimension : Nat
  distanceFunction : String
  fields : List SchemaField

/-- The handle created by `new ChromaClient({host, port, ssl: false})`. -/
structure ClientHandle where
  host : String
  port : Nat

/-- The two private fields of the `ChromaDBService` singleton. -/
structure ServiceState where
  client : Option ClientHandle
  connection : Option ChromaConnection

/-- Arguments of `connect` (name, host, port). -/
structure ConnectRequest where
  name : String
  host : String
  port : Nat

namespace ChromaDBService

/-- The message thrown by every operation when `this.client` is null. -/
def notConnectedMsg : String := "Not connected to ChromaDB"

/-- `connect` (chromadb-client.ts lines 32-62).  `this.client` is assigned
before the heartbeat is awaited; on heartbeat failure the catch block rethrows
with a prefixed message and resets neither field.  `heartbeat` is the oracle
for `this.client.heartbeat()`. -/
def connect (s : ServiceState) (req : ConnectRequest)
    (heartbeat : ClientHandle → Except String Nat) (now : Nat) :
    ServiceState × Except String ChromaConnection :=
  let client : ClientHandle := { host := req.host, port := req.port }
  let s1 : ServiceState := { s with client := some client }
  match heartbeat client with
  | .ok _ =>
      let conn : ChromaConnection :=
        { id := "conn_" ++ toString now, name := req.name, host := req.host,
          port := req.port, connected := true, createdAt := now }
      ({ s1 with connection := some conn }, .ok conn)
  | .error msg =>
      (s1, .error ("Failed to connect to ChromaDB: " ++ msg))

/-- `disconnect` (lines 64-67): clears both fields unconditionally. -/
def disconnect (_s : ServiceState) : ServiceState :=
  { client := none, connection := none }

/-- `isConnected` (lines 69-71): `this.client !== null &&
this.connection?.connected === true`. -/
def isConnected (s : ServiceState) : Bool :=
  s.client.isSome && (match s.connection with
    | some c => c.connected
    | none => false)

/-- `getConnection` (lines 73-75). -/
def getConnection (s : ServiceState) : Option ChromaConnection :=
  s.connection

/-- `getClient` (lines 77-79). -/
def getClient (s : ServiceState) : Option ClientHandle :=
  s.client

end ChromaDBService

/-- One metadata-filter clause of the five-mode document viewer UI. -/
structure MetadataFilter where
  field : String
  op : String
  value : String
  type : String

/-- A constraint stored under one key of a constructed `where` object:
exact match, `$contains`, `$gt` or `$lt`. -/
inductive WhereConstraint where
  | eqv : String → WhereConstraint
  | containsv : String → WhereConstraint
  | gtv : String → WhereConstraint
  | ltv : String → WhereConstraint

/-- A `where` object: ordered key/constraint entries (JavaScript object). -/
abbrev WhereObject := List (String × WhereConstraint)

/-- JavaScript property assignment `w[k] = v`: overwrite in place when the
key exists, otherwise append a new entry. -/
def setKey (w : WhereObject) (k : String) (v : WhereConstraint) : WhereObject :=
  if w.any (fun p => p.1 == k) then
    w.map (fun p => if p.1 == k then (k, v) else p)
  else
    w ++ [(k, v)]

/-- One step of the metadata branch (part_001 lines 139-156): a clause
contributes only when both field and value are truthy (non-empty), via the
operator switch; unknown operators fall through contributing nothing. -/
def whereStep (w : WhereObject) (f : MetadataFilter) : WhereObject :=
  if f.field ≠ "" ∧ f.value ≠ "" then
    match f.op with
    | "equals" => setKey w f.field (.eqv f.value)
    | "contains" => setKey w f.field (.containsv f.value)
    | "greater" => setKey w f.field (.gtv f.value)
    | "less" => setKey w f.field (.ltv f.value)
    | _ => w
  else w

/-- The `whereClause` object accumulated over the ordered clause list. -/
def buildWhere (filters : List MetadataFilter) : WhereObject :=
  filters.foldl whereStep []

/-- A `collection.get` request as issued by this layer. -/
structure GetRequest where
  ids : Option (List String)
  whereFilter : Option WhereObject
  whereDocument : Option String
  limit : Option Nat
  offset : Option Nat

/-- Response of `collection.get`: flat arrays, the optional ones possibly
absent, with possibly-null entries. -/
structure GetResponse where
  ids : List String
  documents : Option (List (Option String))
  metadatas : Option (List (Option Metadata))

/-- Response of `collection.query`: arrays nested one level (one outer entry
per input query), the optional ones possibly absent, with possibly-null
entries. -/
structure QueryResponse where
  ids : List (List String)
  documents : Option (List (List (Option String)))
  metadatas : Option (List (List (Option Metadata)))
  distances : Option (List (List (Option Int)))

/-- `results.documents?.[0]?.[i] || ''` for a nested query response. -/
def qContentAt (qr : QueryResponse) (i : Nat) : String :=
  (((qr.documents.bind (fun ds => ds.get? 0)).bind (fun d0 => d0.get? i)).join).getD ""

/-- `results.metadatas?.[0]?.[i] || undefined` for a nested query response. -/
def qMetaAt (qr : QueryResponse) (i : Nat) : Option Metadata :=
  ((qr.metadatas.bind (fun ms => ms.get? 0)).bind (fun m0 => m0.get? i)).join

/-- `results.distances?.[0]?.[i] || 0` for a nested query response. -/
def qDistAt (qr : QueryResponse) (i : Nat) : Int :=
  (((qr.distances.bind (fun ds => ds.get? 0)).bind (fun d0 => d0.get? i)).join).getD 0

/-- `results.documents?.[i] || ''` for a flat get response. -/
def gContentAt (gr : GetResponse) (i : Nat) : String :=
  ((gr.documents.bind (fun ds => ds.get? i)).join).getD ""

/-- `results.metadatas?.[i] || undefined` for a flat get response. -/
def gMetaAt (gr : GetResponse) (i : Nat) : Option Metadata :=
  (gr.metadatas.bind (fun ms => ms.get? i)).join

/-- The nested-to-flat normalization loop shared by the semantic branches:
`if (results.ids && results.ids[0]) for i in 0..ids[0].length push {...}`. -/
def queryDocs (qr : QueryResponse) : List Document :=
  match qr.ids.get? 0 with
  | none => []
  | some ids0 =>
      (List.range ids0.length).map (fun i =>
        { id := ids0.getD i "", content := qContentAt qr i, metadata := qMetaAt qr i })

/-- The same loop in `queryCollection`, which additionally records the
distance into a `QueryResult`. -/
def queryResultsOf (qr : QueryResponse) : List QueryResult :=
  match qr.ids.get? 0 with
  | none => []
  | some ids0 =>
      (List.range ids0.length).map (fun i =>
        { id := ids0.getD i "", content := qContentAt qr i,
          metadata := qMetaAt qr i, distance := qDistAt qr i })

/-- The flat normalization loop shared by the get-based branches:
`if (results.ids && results.ids.length > 0) for i in 0..ids.length push`. -/
def getDocs (gr : GetResponse) : List Document :=
  (List.range gr.ids.length).map (fun i =>
    { id := gr.ids.getD i "", content := gContentAt gr i, metadata := gMetaAt gr i })

/-- A document as stored by the remote collection. -/
structure StoredDoc where
  id : String
  content : String
  metadata : Metadata

/-- Modelled from the spec: the remote vector-database collection, an
external collaborator of this repository (spec sections 1 and 6).  It holds a
name, optional collection metadata, and an ordered document list; `count` is
its size. -/
structure CollectionStore where
  name : String
  metadata : Option Metadata
  docs : List StoredDoc

/-- Modelled from the spec: evaluation of one `where` constraint against a
stored metadata value (exact match, containment, strict order on the string
form). -/
def matchesConstraint (c : WhereConstraint) (v : JSValue) : Bool :=
  match c, v with
  | .eqv x, .str s => s == x
  | .containsv x, .str s => decide (x.data <:+: s.data)
  | .gtv x, .str s => x < s
  | .ltv x, .str s => s < x
  | _, _ => false

/-- Modelled from the spec: a document satisfies a `where` object when every
entry holds of its metadata (conjunctive filter). -/
def matchesWhere (w : WhereObject) (md : Metadata) : Bool :=
  w.all (fun kc =>
    match md.find? (fun p => p.1 == kc.1) with
    | some p => matchesConstraint kc.2 p.2
    | none => false)

/-- Modelled from the spec: the external `collection get (by
id/offset/limit/where/whereDocument)` operation (spec section 6): select by
id list, then by metadata filter, then by content containment, apply offset
then limit, and answer with flat arrays. -/
def CollectionStore.getReq (store : CollectionStore) (req : GetRequest) : GetResponse :=
  let sel1 : List StoredDoc :=
    match req.ids with
    | some ids => store.docs.filter (fun d => ids.contains d.id)
    | none => store.docs
  let sel2 : List StoredDoc :=
    match req.whereFilter with
    | some w => sel1.filter (fun d => matchesWhere w d.metadata)
    | none => sel1
  let sel3 : List StoredDoc :=
    match req.whereDocument with
    | some sub => sel2.filter (fun d => decide (sub.data <:+: d.content.data))
    | none => sel2
  let afterOffset := sel3.drop (req.offset.getD 0)
  let page :=
    match req.limit with
    | some l => afterOffset.take l
    | none => afterOffset
  { ids := page.map (fun d => d.id),
    documents := some (page.map (fun d => some d.content)),
    metadatas := some (page.map (fun d => some d.metadata)) }

namespace ChromaDBService

/-- `getCollections` (lines 81-98): throws when `this.client` is null;
otherwise maps the remote listing into `Collection` records with index-based
ids and a hardcoded `count: 0`.  `remote` is the oracle for
`this.client.listCollections()`. -/
def getCollections (s : ServiceState)
    (remote : Except String (List (String × Option Metadata))) (now : Nat) :
    Except String (List Collection) :=
  match s.client with
  | none => .error notConnectedMsg
  | some _ =>
      match remote with
      | .error e => .error ("Failed to fetch collections: " ++ e)
      | .ok cols =>
          .ok (cols.enum.map (fun ic =>
            { id := "collection_" ++ toString ic.1, name := ic.2.1, count := 0,
              metadata := ic.2.2, createdAt := now }))

/-- `getCollectionDetails` (lines 100-122): fetches the collection, issues a
separate `count` call, and returns the real count.  `remote` is the oracle
for `this.client.getCollection(...)`. -/
def getCollectionDetails (s : ServiceState) (collectionName : String)
    (remote : Except String CollectionStore) (now : Nat) :
    Except String Collection :=
  match s.client with
  | none => .error notConnectedMsg
  | some _ =>
      match remote with
      | .error e => .error ("Failed to get collection details: " ++ e)
      | .ok store =>
          .ok { id := "collection_" ++ collectionName, name := collectionName,
                count := store.docs.length, metadata := store.metadata,
                createdAt := now }

/-- `getCollectionSchema` (lines 124-164): samples one document with
`get({limit: 1})`, derives a field per metadata entry with type `typeof
value`, and returns hardcoded dimension 1536 and distance "cosine". -/
def getCollectionSchema (s : ServiceState) (collectionName : String)
    (remote : Except String CollectionStore) :
    Except String CollectionSchema :=
  match s.client with
  | none => .error notConnectedMsg
  | some _ =>
      match remote with
      | .error e => .error ("Failed to get collection schema: " ++ e)
      | .ok store =>
          let results := store.getReq
            { ids := none, whereFilter := none, whereDocument := none,
              limit := some 1, offset := none }
          let fields : List SchemaField :=
            match results.metadatas with
            | none => []
            | some ms =>
                if ms.length > 0 then
                  match ms.get? 0 with
                  | some (some md) =>
                      md.map (fun kv =>
                        { name := kv.1, type := jsTypeof kv.2,
                          nullable := kv.2.isNull, sample := kv.2 })
                  | _ => []
                else []
          .ok { name := collectionName, vectorDimension := 1536,
                distanceFunction := "cosine", fields := fields }

/-- `queryCollection` (lines 166-217): throws when `this.client` is null;
otherwise normalizes the nested query response into a flat `QueryResult`
list.  `remote` is the oracle for the awaited `collection.query(...)`. -/
def queryCollection (s : ServiceState) (_collectionName : String)
    (remote : Except String QueryResponse) :
    Except String (List QueryResult) :=
  match s.client with
  | none => .error notConnectedMsg
  | some _ =>
      match remote with
      | .error e => .error ("Failed to query collection: " ++ e)
      | .ok resp => .ok (queryResultsOf resp)

/-- The fresh id minted by `addDocument`:
a template over `Date.now()` and the random suffix. -/
def genId (now : Nat) (rnd : String) : String :=
  "doc_" ++ toString now ++ "_" ++ rnd

/-- `addDocument` (lines 219-242): throws when `this.client` is null;
otherwise mints a fresh id and sends `add` with `metadatas: [metadata || {}]`.
The resulting store (the remote collection after the add appends the
document) is returned alongside the id. -/
def addDocument (s : ServiceState) (_collectionName : String)
    (content : String) (metadata : Option Metadata)
    (remote : Except String CollectionStore) (now : Nat) (rnd : String) :
    Except String (String × CollectionStore) :=
  match s.client with
  | none => .error notConnectedMsg
  | some _ =>
      match remote with
      | .error e => .error ("Failed to add document: " ++ e)
      | .ok store =>
          let id := genId now rnd
          .ok (id, { store with
            docs := store.docs ++ [{ id := id, content := content,
                                     metadata := metadata.getD [] }] })

/-- `updateDocument` (lines 244-268): throws when `this.client` is null;
otherwise sends `update` with `metadatas: [metadata || {}]`, which replaces
the stored content and metadata of the matching id. -/
def updateDocument (s : ServiceState) (_collectionName : String)
    (doc : Document) (remote : Except String CollectionStore) :
    Except String CollectionStore :=
  match s.client with
  | none => .error notConnectedMsg
  | some _ =>
      match remote with
      | .error e => .error ("Failed to update document: " ++ e)
      | .ok store =>
          .ok { store with
            docs := store.docs.map (fun d =>
              if d.id == doc.id then
                { id := d.id, content := doc.content,
                  metadata := doc.metadata.getD [] }
              else d) }

/-- `deleteDocument` (lines 270-287): throws when `this.client` is null;
otherwise sends `delete` with the one-element id list. -/
def deleteDocument (s : ServiceState) (_collectionName : String)
    (documentId : String) (remote : Except String CollectionStore) :
    Except String CollectionStore :=
  match s.client with
  | none => .error notConnectedMsg
  | some _ =>
      match remote with
      | .error e => .error ("Failed to delete document: " ++ e)
      | .ok store =>
          .ok { store with docs := store.docs.filter (fun d => d.id != documentId) }

end ChromaDBService

/-- Result of a `fetchDocuments` call: the page of documents and the total
reported to the pagination UI. -/
structure FetchResult where
  documents : List Document
  totalDocuments : Nat

/-- `fetchDocuments` of the five-mode document viewer (part_001 lines
81-222): branch on search term and mode, normalize, then in every branch set
the total from a separate `collection.count()` call.  `query` and `get` are
the oracles for `collection.query` and `collection.get`; `count` is the
oracle for `collection.count()`. -/
def fetchDocumentsMulti (query : String → Nat → QueryResponse)
    (get : GetRequest → GetResponse) (count : Nat)
    (page : Nat) (search : String) (stype : String)
    (filters : List MetadataFilter) : FetchResult :=
  let limit : Nat := 20
  let offset : Nat := (page - 1) * 20
  let docs : List Document :=
    if search ≠ "" ∧ stype = "semantic" then
      queryDocs (query search limit)
    else if search ≠ "" ∧ stype = "text" then
      getDocs (get { ids := none, whereFilter := none,
                     whereDocument := some search, limit := some limit,
                     offset := some offset })
    else if search ≠ "" ∧ stype = "metadata" then
      let w := buildWhere filters
      getDocs (get { ids := none,
                     whereFilter := if w.length > 0 then some w else none,
                     whereDocument := none, limit := some limit,
                     offset := some offset })
    else if search ≠ "" ∧ stype = "id" then
      getDocs (get { ids := some [search], whereFilter := none,
                     whereDocument := none, limit := some limit,
                     offset := none })
    else
      getDocs (get { ids := none, whereFilter := none, whereDocument := none,
                     limit := some limit, offset := some offset })
  { documents := docs, totalDocuments := count }

/-- `fetchDocuments` of the simple document viewer
(document-viewer.tsx lines 55-127): on a non-empty search it issues a query,
reports the number of returned documents as the total and returns early,
never reaching the `collection.count()` call; only the no-search listing
reports the count. -/
def fetchDocumentsSimple (query : String → Nat → QueryResponse)
    (get : GetRequest → GetResponse) (count : Nat)
    (page : Nat) (search : String) : FetchResult :=
  let limit : Nat := 20
  let offset : Nat := (page - 1) * 20
  if search ≠ "" then
    let docs := queryDocs (query search limit)
    { documents := docs, totalDocuments := docs.length }
  else
    let docs := getDocs (get { ids := none, whereFilter := none,
                               whereDocument := none, limit := some limit,
                               offset := some offset })
    { documents := docs, totalDocuments := count }

/-- The accumulation loop of `SimpleEmbeddingFunction.generate`
(chromadb-client.ts lines 17-24): starting from 1536 zeros, for the i-th
character code c the entry at position `i % 1536` becomes
`(previous + c) % 1000`.  A text is represented by its list of character
codes. -/
def embedLoop (e : List Nat) (i : Nat) (codes : List Nat) : List Nat :=
  match codes with
  | [] => e
  | c :: cs =>
      embedLoop (e.set (i % 1536) ((e.getD (i % 1536) 0 + c) % 1000)) (i + 1) cs

/-- One embedding vector for one text. -/
def embedOne (codes : List Nat) : List Nat :=
  embedLoop (List.replicate 1536 0) 0 codes

/-- `SimpleEmbeddingFunction.generate` (lines 14-25): one vector per text. -/
def SimpleEmbeddingFunction.generate (texts : List (List Nat)) : List (List Nat) :=
  texts.map embedOne

open ChromaDBService

/-- Claim C1: in every state with no live client handle (in particular any
state right after `disconnect`), each of the seven collection/document/query
operations fails with the "not connected" error, for every possible remote
oracle (hence without any remote call being consulted); `disconnect` clears
both fields for every prior state. -/
theorem c1_not_connected_ops_fail (s : ServiceState) (h : s.client = none) :
    (∀ rc now, getCollections s rc now = .error notConnectedMsg) ∧
    (∀ cn rs now, getCollectionDetails s cn rs now = .error notConnectedMsg) ∧
    (∀ cn rs, getCollectionSchema s cn rs = .error notConnectedMsg) ∧
    (∀ cn rq, queryCollection s cn rq = .error notConnectedMsg) ∧
    (∀ cn content md rs now rnd,
       addDocument s cn content md rs now rnd = .error notConnectedMsg) ∧
    (∀ cn doc rs, updateDocument s cn doc rs = .error notConnectedMsg) ∧
    (∀ cn did rs, deleteDocument s cn did rs = .error notConnectedMsg) ∧
    (∀ s₀ : ServiceState, (disconnect s₀).client = none ∧
       (disconnect s₀).connection = none ∧
       isConnected (disconnect s₀) = false) := by
  refine ⟨?_, ?_, ?_, ?_, ?_, ?_, ?_, ?_⟩ <;> intros <;>
    simp [getCollections, getCollectionDetails, getCollectionSchema,
          queryCollection, addDocument, updateDocument, deleteDocument,
          disconnect, isConnected, h]

/-- Witness for C1 at the freshly disconnected state. -/
theorem c1_not_connected_ops_fail_witness :
    getCollections (disconnect ⟨none, none⟩) (.ok [("docs", none)]) 0 =
      .error notConnectedMsg :=
  (c1_not_connected_ops_fail (disconnect ⟨none, none⟩) rfl).1 (.ok [("docs", none)]) 0

/-- Claim C2 counterexample: on an unreachable target `connect` does fail
with the wrapped message, but it installs a fresh client handle before the
heartbeat and the catch block never clears it, so the service is not "exactly
as before the attempt"; worse, from a previously connected state the stale
connection record survives, so `isConnected` stays true and `getConnection`
is not none. -/
theorem c2_failed_connect_counterexample :
    (connect ⟨none, none⟩ ⟨"Local ChromaDB", "localhost", 8000⟩
        (fun _ => .error "fetch failed") 0).2 =
      .error "Failed to connect to ChromaDB: fetch failed" ∧
    (connect ⟨none, none⟩ ⟨"Local ChromaDB", "localhost", 8000⟩
        (fun _ => .error "fetch failed") 0).1.client =
      some ⟨"localhost", 8000⟩ ∧
    (⟨none, none⟩ : ServiceState).client = none ∧
    isConnected
      (connect
        ⟨some ⟨"localhost", 8000⟩,
         some ⟨"conn_1", "Local", "localhost", 8000, true, 1⟩⟩
        ⟨"Other", "otherhost", 9000⟩ (fun _ => .error "boom") 2).1 = true ∧
    getConnection
      (connect
        ⟨some ⟨"localhost", 8000⟩,
         some ⟨"conn_1", "Local", "localhost", 8000, true, 1⟩⟩
        ⟨"Other", "otherhost", 9000⟩ (fun _ => .error "boom") 2).1 =
      some ⟨"conn_1", "Local", "localhost", 8000, true, 1⟩ :=
  ⟨rfl, rfl, rfl, rfl, rfl⟩

/-- Claim C2 (amended): a failed connect attempt fails with a
`ConnectionError` carrying the underlying message and installs no new
`Connection` record (`this.connection` is unchanged, so from a
never-connected state `getConnection` is none and `isConnected` is false),
but the client handle created before the heartbeat remains installed. -/
theorem c2_failed_connect_amended (s : ServiceState) (req : ConnectRequest)
    (heartbeat : ClientHandle → Except String Nat) (now : Nat) (msg : String)
    (h : heartbeat ⟨req.host, req.port⟩ = .error msg) :
    (connect s req heartbeat now).2 =
      .error ("Failed to connect to ChromaDB: " ++ msg) ∧
    (connect s req heartbeat now).1.connection = s.connection ∧
    (connect s req heartbeat now).1.client = some ⟨req.host, req.port⟩ ∧
    (s.connection = none →
      getConnection (connect s req heartbeat now).1 = none ∧
      isConnected (connect s req heartbeat now).1 = false) := by
  refine ⟨?_, ?_, ?_, fun hc => ?_⟩
  · simp [connect, h]
  · simp [connect, h]
  · simp [connect, h]
  · constructor <;> simp [connect, h, getConnection, isConnected, hc]

/-- Witness for the amended C2 at a concrete unreachable target. -/
theorem c2_failed_connect_amended_witness :
    (fun _ : ClientHandle => (.error "fetch failed" : Except String Nat))
        ⟨"localhost", 8000⟩ = .error "fetch failed" ∧
    (connect ⟨none, none⟩ ⟨"Local ChromaDB", "localhost", 8000⟩
        (fun _ => .error "fetch failed") 0).2 =
      .error ("Failed to connect to ChromaDB: " ++ "fetch failed") :=
  ⟨rfl, (c2_failed_connect_amended ⟨none, none⟩ ⟨"Local ChromaDB", "localhost", 8000⟩
      (fun _ => .error "fetch failed") 0 "fetch failed" rfl).1⟩

/-- Claim C3 counterexample: in the simple document viewer, a non-empty
search reports the number of returned query results (here 1) as the total,
not the collection size obtained from the count call (here 3). -/
theorem c3_total_count_counterexample :
    (fetchDocumentsSimple
        (fun _ _ => ⟨[["d1"]], some [[some "x"]], some [[none]], none⟩)
        (fun _ => ⟨[], none, none⟩) 3 1 "hello").totalDocuments = 1 ∧
    (1 : Nat) ≠ 3 :=
  ⟨rfl, by decide⟩

/-- Claim C3 (amended): in the five-mode document viewer every branch
(text, semantic, regex, id, metadata and the default listing) reports the
separate count-call result as the total; in the simple document viewer this
holds only for the no-search listing, while a non-empty search reports the
number of returned query results instead. -/
theorem c3_total_count_amended (query : String → Nat → QueryResponse)
    (get : GetRequest → GetResponse) (count page : Nat) (search stype : String)
    (filters : List MetadataFilter) :
    (fetchDocumentsMulti query get count page search stype filters).totalDocuments
      = count ∧
    (search = "" →
      (fetchDocumentsSimple query get count page search).totalDocuments = count) ∧
    (search ≠ "" →
      (fetchDocumentsSimple query get count page search).totalDocuments =
        (queryDocs (query search 20)).length) := by
  refine ⟨rfl, fun h => ?_, fun h => ?_⟩ <;> simp [fetchDocumentsSimple, h]

/-- Witness for the amended C3 on a concrete listing and a concrete search. -/
theorem c3_total_count_amended_witness :
    ("" : String) = "" ∧ ("q" : String) ≠ "" ∧
    (fetchDocumentsSimple (fun _ _ => ⟨[], none, none, none⟩)
        (fun _ => ⟨[], none, none⟩) 5 1 "").totalDocuments = 5 ∧
    (fetchDocumentsSimple (fun _ _ => ⟨[["a"]], none, none, none⟩)
        (fun _ => ⟨[], none, none⟩) 5 1 "q").totalDocuments =
      (queryDocs ((fun _ _ => (⟨[["a"]], none, none, none⟩ : QueryResponse)) "q" 20)).length :=
  ⟨rfl, by decide,
   (c3_total_count_amended (fun _ _ => ⟨[], none, none, none⟩)
      (fun _ => ⟨[], none, none⟩) 5 1 "" "text" []).2.1 rfl,
   (c3_total_count_amended (fun _ _ => ⟨[["a"]], none, none, none⟩)
      (fun _ => ⟨[], none, none⟩) 5 1 "q" "text" []).2.2 (by decide)⟩

/-- Claim C10: every `Collection` record returned by `getCollections` has
count 0 regardless of actual contents, and `getCollectionDetails` is the
operation that reports the real count of the remote collection. -/
theorem c10_list_count_zero (s : ServiceState) (ch : ClientHandle)
    (hs : s.client = some ch) (cols : List (String × Option Metadata))
    (now : Nat) (cn : String) (store : CollectionStore) :
    (∃ l, getCollections s (.ok cols) now = .ok l ∧ ∀ c ∈ l, c.count = 0) ∧
    getCollectionDetails s cn (.ok store) now =
      .ok ⟨"collection_" ++ cn, cn, store.docs.length, store.metadata, now⟩ := by
  refine ⟨⟨cols.enum.map (fun ic =>
      ⟨"collection_" ++ toString ic.1, ic.2.1, 0, ic.2.2, now⟩), ?_, ?_⟩, ?_⟩
  · simp [getCollections, hs]
  · intro c hc
    simp only [List.mem_map] at hc
    obtain ⟨ic, _, rfl⟩ := hc
    rfl
  · simp [getCollectionDetails, hs]

/-- Witness for C10 with one remote collection holding two documents. -/
theorem c10_list_count_zero_witness :
    (⟨some ⟨"localhost", 8000⟩, none⟩ : ServiceState).client =
      some ⟨"localhost", 8000⟩ ∧
    getCollectionDetails ⟨some ⟨"localhost", 8000⟩, none⟩ "docs"
        (.ok ⟨"docs", none, [⟨"d1", "x", []⟩, ⟨"d2", "y", []⟩]⟩) 7 =
      .ok ⟨"collection_docs", "docs", 2, none, 7⟩ :=
  ⟨rfl,
   (c10_list_count_zero ⟨some ⟨"localhost", 8000⟩, none⟩ ⟨"localhost", 8000⟩
      rfl [] 7 "docs" ⟨"docs", none, [⟨"d1", "x", []⟩, ⟨"d2", "y", []⟩]⟩).2⟩

/-- Claim C8: with a live client, `getCollectionSchema` on a collection with
zero documents yields an empty field list with the hardcoded placeholders
1536 and "cosine". -/
theorem c8_empty_collection_schema (s : ServiceState) (ch : ClientHandle)
    (hs : s.client = some ch) (cn : String) (store : CollectionStore)
    (hempty : store.docs = []) :
    getCollectionSchema s cn (.ok store) = .ok ⟨cn, 1536, "cosine", []⟩ := by
  simp [getCollectionSchema, hs, CollectionStore.getReq, hempty]

/-- Witness for C8 on a concrete empty collection. -/
theorem c8_empty_collection_schema_witness :
    (⟨some ⟨"localhost", 8000⟩, none⟩ : ServiceState).client =
      some ⟨"localhost", 8000⟩ ∧
    (⟨"docs", none, []⟩ : CollectionStore).docs = [] ∧
    getCollectionSchema ⟨some ⟨"localhost", 8000⟩, none⟩ "docs"
        (.ok ⟨"docs", none, []⟩) = .ok ⟨"docs", 1536, "cosine", []⟩ :=
  ⟨rfl, rfl,
   c8_empty_collection_schema ⟨some ⟨"localhost", 8000⟩, none⟩
     ⟨"localhost", 8000⟩ rfl "docs" ⟨"docs", none, []⟩ rfl⟩

/-- Claim C4: evaluation at the failing input.  `getCollectionSchema` records
`typeof value` for each sampled metadata value, so an array value is typed
"object", while the (uncalled) private classifier `inferFieldType` — the
classification the claim describes — types the same value "array". -/
theorem c4_schema_array_typed_object :
    getCollectionSchema ⟨some ⟨"localhost", 8000⟩, none⟩ "docs"
        (.ok ⟨"docs", none,
          [⟨"d1", "x", [("tags", .arr [.num 1, .num 2, .num 3])]⟩]⟩) =
      .ok ⟨"docs", 1536, "cosine",
        [⟨"tags", "object", false, .arr [.num 1, .num 2, .num 3]⟩]⟩ ∧
    inferFieldType (.arr [.num 1, .num 2, .num 3]) = "array" ∧
    jsTypeof (.arr [.num 1, .num 2, .num 3]) ≠ "array" :=
  ⟨rfl, rfl, by decide⟩

/-- Folding the clause list from any accumulator ignores exactly the clauses
with an empty field or value. -/
theorem foldl_whereStep_filter (filters : List MetadataFilter) (w : WhereObject) :
    filters.foldl whereStep w =
      (filters.filter (fun f => decide (f.field ≠ "" ∧ f.value ≠ ""))).foldl whereStep w := by
  induction filters generalizing w with
  | nil => rfl
  | cons f fs ih =>
      by_cases h : f.field ≠ "" ∧ f.value ≠ ""
      · have hdec : decide (f.field ≠ "" ∧ f.value ≠ "") = true :=
          decide_eq_true h
        simp only [List.foldl_cons, List.filter_cons, hdec, if_true]
        exact ih (whereStep w f)
      · have hstep : whereStep w f = w := by simp [whereStep, h]
        have hdec : decide (f.field ≠ "" ∧ f.value ≠ "") = false := by
          simpa using h
        simp only [List.foldl_cons, hstep, List.filter_cons, hdec,
          Bool.false_eq_true, if_false]
        exact ih w

/-- Claim C5: clauses with an empty field or value contribute nothing to the
constructed `where` object (for every operator choice), and when the object
ends up with no keys the metadata-mode fetch issues exactly the unfiltered
listing request, returning the unfiltered page for every remote oracle. -/
theorem c5_empty_clauses_dropped (filters : List MetadataFilter)
    (query : String → Nat → QueryResponse) (get : GetRequest → GetResponse)
    (count page : Nat) (search : String) (hsearch : search ≠ "") :
    buildWhere filters =
      buildWhere (filters.filter (fun f => decide (f.field ≠ "" ∧ f.value ≠ ""))) ∧
    (buildWhere filters = [] →
      fetchDocumentsMulti query get count page search "metadata" filters =
        fetchDocumentsMulti query get count page "" "" []) := by
  constructor
  · exact foldl_whereStep_filter filters []
  · intro h
    simp [fetchDocumentsMulti, hsearch, h]

/-- Witness for C5: two clauses, one with an empty field and one with an
empty value, build an empty filter, and the metadata-mode fetch coincides
with the plain listing. -/
theorem c5_empty_clauses_dropped_witness :
    ("q" : String) ≠ "" ∧
    buildWhere [⟨"", "equals", "v", "string"⟩, ⟨"f", "contains", "", "string"⟩] = [] ∧
    fetchDocumentsMulti (fun _ _ => ⟨[], none, none, none⟩)
        (fun _ => ⟨["d1"], some [some "x"], none⟩) 4 1 "q" "metadata"
        [⟨"", "equals", "v", "string"⟩, ⟨"f", "contains", "", "string"⟩] =
      fetchDocumentsMulti (fun _ _ => ⟨[], none, none, none⟩)
        (fun _ => ⟨["d1"], some [some "x"], none⟩) 4 1 "" "" [] :=
  ⟨by decide, rfl,
   (c5_empty_clauses_dropped
      [⟨"", "equals", "v", "string"⟩, ⟨"f", "contains", "", "string"⟩]
      (fun _ _ => ⟨[], none, none, none⟩)
      (fun _ => ⟨["d1"], some [some "x"], none⟩) 4 1 "q" (by decide)).2 rfl⟩

/-- Index lookup in a map over `List.range`. -/
theorem get?_range_map {α : Type} (f : Nat → α) (n i : Nat) (h : i < n) :
    ((List.range n).map f).get? i = some (f i) := by
  simp [List.get?_eq_getElem?, List.getElem?_map, List.getElem?_range h]

/-- Claim C6: normalization always yields a flat ordered list of `Document`
literals, total on every response shape: the nested query shape maps position
`[0][i]` and the flat get shape maps position `[i]` into the i-th output
document; a missing documents array defaults every content to the empty
string and a missing metadatas array leaves every metadata absent. -/
theorem c6_normalization (qr : QueryResponse) (gr : GetResponse) :
    (queryDocs qr).length = (qr.ids.getD 0 []).length ∧
    (∀ i, i < (qr.ids.getD 0 []).length →
      (queryDocs qr).get? i =
        some ⟨(qr.ids.getD 0 []).getD i "", qContentAt qr i, qMetaAt qr i⟩) ∧
    (qr.documents = none → ∀ i,
      ((queryDocs qr).getD i ⟨"", "", none⟩).content = "") ∧
    (qr.metadatas = none → ∀ i,
      ((queryDocs qr).getD i ⟨"", "", none⟩).metadata = none) ∧
    (queryResultsOf qr).length = (qr.ids.getD 0 []).length ∧
    (getDocs gr).length = gr.ids.length ∧
    (∀ i, i < gr.ids.length →
      (getDocs gr).get? i =
        some ⟨gr.ids.getD i "", gContentAt gr i, gMetaAt gr i⟩) ∧
    (gr.documents = none → ∀ i,
      ((getDocs gr).getD i ⟨"", "", none⟩).content = "") ∧
    (gr.metadatas = none → ∀ i,
      ((getDocs gr).getD i ⟨"", "", none⟩).metadata = none) := by
  refine ⟨?_, ?_, ?_, ?_, ?_, ?_, ?_, ?_, ?_⟩
  · cases h0 : qr.ids[0]? <;>
      simp [queryDocs, List.get?_eq_getElem?, List.getD, h0]
  · intro i hi
    cases h0 : qr.ids[0]? with
    | none =>
        exfalso
        simp [List.getD, List.get?_eq_getElem?, h0] at hi
    | some ids0 =>
        have hi2 : i < ids0.length := by
          simpa [List.getD, List.get?_eq_getElem?, h0] using hi
        simp only [queryDocs, List.get?_eq_getElem?, h0]
        rw [List.getElem?_map, List.getElem?_range hi2]
        simp [List.getD, List.get?_eq_getElem?, h0]
  · intro hdoc i
    have hall : ∀ d ∈ queryDocs qr, d.content = "" := by
      intro d hd
      cases h0 : qr.ids[0]? with
      | none => simp [queryDocs, List.get?_eq_getElem?, h0] at hd
      | some ids0 =>
          simp only [queryDocs, List.get?_eq_getElem?, h0, List.mem_map] at hd
          obtain ⟨j, _, rfl⟩ := hd
          simp [qContentAt, hdoc]
    cases h : (queryDocs qr)[i]? with
    | none => simp [List.getD, List.get?_eq_getElem?, h]
    | some d =>
        have hm : d ∈ queryDocs qr :=
          List.get?_mem (by rw [List.get?_eq_getElem?]; exact h)
        simp [List.getD, List.get?_eq_getElem?, h, hall d hm]
  · intro hmeta i
    have hall : ∀ d ∈ queryDocs qr, d.metadata = none := by
      intro d hd
      cases h0 : qr.ids[0]? with
      | none => simp [queryDocs, List.get?_eq_getElem?, h0] at hd
      | some ids0 =>
          simp only [queryDocs, List.get?_eq_getElem?, h0, List.mem_map] at hd
          obtain ⟨j, _, rfl⟩ := hd
          simp [qMetaAt, hmeta]
    cases h : (queryDocs qr)[i]? with
    | none => simp [List.getD, List.get?_eq_getElem?, h]
    | some d =>
        have hm : d ∈ queryDocs qr :=
          List.get?_mem (by rw [List.get?_eq_getElem?]; exact h)
        simp [List.getD, List.get?_eq_getElem?, h, hall d hm]
  · cases h0 : qr.ids[0]? <;>
      simp [queryResultsOf, List.get?_eq_getElem?, List.getD, h0]
  · simp [getDocs]
  · intro i hi
    simp only [getDocs, List.get?_eq_getElem?]
    rw [List.getElem?_map, List.getElem?_range hi]
    simp
  · intro hdoc i
    have hall : ∀ d ∈ getDocs gr, d.content = "" := by
      intro d hd
      simp only [getDocs, List.mem_map] at hd
      obtain ⟨j, _, rfl⟩ := hd
      simp [gContentAt, hdoc]
    cases h : (getDocs gr)[i]? with
    | none => simp [List.getD, List.get?_eq_getElem?, h]
    | some d =>
        have hm : d ∈ getDocs gr :=
          List.get?_mem (by rw [List.get?_eq_getElem?]; exact h)
        simp [List.getD, List.get?_eq_getElem?, h, hall d hm]
  · intro hmeta i
    have hall : ∀ d ∈ getDocs gr, d.metadata = none := by
      intro d hd
      simp only [getDocs, List.mem_map] at hd
      obtain ⟨j, _, rfl⟩ := hd
      simp [gMetaAt, hmeta]
    cases h : (getDocs gr)[i]? with
    | none => simp [List.getD, List.get?_eq_getElem?, h]
    | some d =>
        have hm : d ∈ getDocs gr :=
          List.get?_mem (by rw [List.get?_eq_getElem?]; exact h)
        simp [List.getD, List.get?_eq_getElem?, h, hall d hm]

/-- Witness for C6 on a nested response with no documents array and a flat
response with no metadatas array. -/
theorem c6_normalization_witness :
    (⟨[["d1"]], none, none, none⟩ : QueryResponse).documents = none ∧
    ((queryDocs ⟨[["d1"]], none, none, none⟩).getD 0 ⟨"", "", none⟩).content = "" ∧
    (⟨["g1"], none, none⟩ : GetResponse).metadatas = none ∧
    ((getDocs ⟨["g1"], none, none⟩).getD 0 ⟨"", "", none⟩).metadata = none :=
  ⟨rfl,
   (c6_normalization ⟨[["d1"]], none, none, none⟩ ⟨["g1"], none, none⟩).2.2.1 rfl 0,
   rfl,
   (c6_normalization ⟨[["d1"]], none, none, none⟩
      ⟨["g1"], none, none⟩).2.2.2.2.2.2.2.2 rfl 0⟩

/-- The minted document id is never the empty string. -/
theorem genId_ne_empty (now : Nat) (rnd : String) : genId now rnd ≠ "" := by
  intro h
  have hlen := congrArg String.length h
  simp [genId, String.length_append] at hlen
  exact absurd hlen.1.2 (by decide)

/-- Claim C7: with a live client, adding a document and then looking its
returned id up through the id-mode fetch yields one document with the same
content and the same metadata, the latter defaulting to the empty mapping
when omitted at add time. -/
theorem c7_add_get_roundtrip (s : ServiceState) (ch : ClientHandle)
    (hs : s.client = some ch) (cn : String) (store : CollectionStore)
    (content : String) (metadata : Option Metadata) (now : Nat) (rnd : String)
    (query : String → Nat → QueryResponse) (count page : Nat)
    (hfresh : ∀ d ∈ store.docs, d.id ≠ genId now rnd) :
    ∃ store2 : CollectionStore,
      addDocument s cn content metadata (.ok store) now rnd =
        .ok (genId now rnd, store2) ∧
      (fetchDocumentsMulti query store2.getReq count page (genId now rnd)
          "id" []).documents =
        [⟨genId now rnd, content, some (metadata.getD [])⟩] := by
  refine ⟨{ store with docs := store.docs ++
      [⟨genId now rnd, content, metadata.getD []⟩] }, ?_, ?_⟩
  · simp [addDocument, hs]
  · have hne := genId_ne_empty now rnd
    have h1 : store.docs.filter
        (fun d => decide (d.id = genId now rnd)) = [] := by
      refine List.filter_eq_nil_iff.2 (fun d hd => ?_)
      simpa using hfresh d hd
    simp [fetchDocumentsMulti, hne, CollectionStore.getReq,
      List.filter_append, h1, getDocs, gContentAt, gMetaAt, List.getD]
    rfl

/-- Witness for C7: add "hello" without metadata to an empty collection and
read it back by id. -/
theorem c7_add_get_roundtrip_witness :
    (⟨some ⟨"localhost", 8000⟩, none⟩ : ServiceState).client =
      some ⟨"localhost", 8000⟩ ∧
    (∀ d ∈ (⟨"docs", none, []⟩ : CollectionStore).docs, d.id ≠ genId 0 "abc") ∧
    ∃ store2 : CollectionStore,
      addDocument ⟨some ⟨"localhost", 8000⟩, none⟩ "docs" "hello" none
          (.ok ⟨"docs", none, []⟩) 0 "abc" =
        .ok (genId 0 "abc", store2) ∧
      (fetchDocumentsMulti (fun _ _ => ⟨[], none, none, none⟩) store2.getReq
          0 1 (genId 0 "abc") "id" []).documents =
        [⟨genId 0 "abc", "hello", some ((none : Option Metadata).getD [])⟩] :=
  ⟨rfl, by simp,
   c7_add_get_roundtrip ⟨some ⟨"localhost", 8000⟩, none⟩ ⟨"localhost", 8000⟩
     rfl "docs" ⟨"docs", none, []⟩ "hello" none 0 "abc"
     (fun _ _ => ⟨[], none, none, none⟩) 0 1 (by simp)⟩

/-- The accumulation loop preserves the vector length. -/
theorem embedLoop_length (codes : List Nat) (e : List Nat) (i : Nat) :
    (embedLoop e i codes).length = e.length := by
  induction codes generalizing e i with
  | nil => rfl
  | cons c cs ih => simp [embedLoop, ih]

/-- The accumulation loop keeps every entry below 1000. -/
theorem embedLoop_lt (codes : List Nat) (e : List Nat) (i : Nat)
    (he : ∀ x ∈ e, x < 1000) : ∀ x ∈ embedLoop e i codes, x < 1000 := by
  induction codes generalizing e i with
  | nil => simpa [embedLoop] using he
  | cons c cs ih =>
      intro x hx
      refine ih _ _ (fun y hy => ?_) x hx
      rcases List.mem_or_eq_of_mem_set hy with h | h
      · exact he y h
      · subst h
        exact Nat.mod_lt _ (by norm_num)

/-- Claim C9: the placeholder embedding function returns exactly one vector
per input text, each of length 1536; the update rule adds the i-th character
code into position i mod 1536 modulo 1000; consequently every entry of every
returned vector lies below 1000. -/
theorem c9_embedding_properties (texts : List (List Nat)) :
    SimpleEmbeddingFunction.generate texts = texts.map embedOne ∧
    (SimpleEmbeddingFunction.generate texts).length = texts.length ∧
    (∀ t ∈ texts, (embedOne t).length = 1536) ∧
    (∀ e i c cs, embedLoop e i (c :: cs) =
      embedLoop (e.set (i % 1536) ((e.getD (i % 1536) 0 + c) % 1000))
        (i + 1) cs) ∧
    (∀ i j, ((SimpleEmbeddingFunction.generate texts).getD i []).getD j 0 < 1000) := by
  refine ⟨rfl, by simp [SimpleEmbeddingFunction.generate], ?_, ?_, ?_⟩
  · intro t _
    rw [embedOne, embedLoop_length, List.length_replicate]
  · intro e i c cs
    rfl
  · intro i j
    cases hv : (SimpleEmbeddingFunction.generate texts)[i]? with
    | none => simp [List.getD, List.get?_eq_getElem?, hv]
    | some v =>
        have hm : v ∈ SimpleEmbeddingFunction.generate texts :=
          List.get?_mem (by rw [List.get?_eq_getElem?]; exact hv)
        obtain ⟨t, _, rfl⟩ :=
          List.mem_map.1 (by simpa [SimpleEmbeddingFunction.generate] using hm)
        have hlt : ∀ x ∈ embedOne t, x < 1000 := by
          refine embedLoop_lt _ _ _ (fun x hx => ?_)
          rw [List.eq_of_mem_replicate hx]
          norm_num
        cases hx : (embedOne t)[j]? with
        | none => simp [List.getD, List.get?_eq_getElem?, hv, hx]
        | some x =>
            have : x < 1000 :=
              hlt x (List.get?_mem (by rw [List.get?_eq_getElem?]; exact hx))
            simpa [List.getD, List.get?_eq_getElem?, hv, hx] using this

/-- Witness for C9 at the text with character codes 72 and 105. -/
theorem c9_embedding_properties_witness :
    ([72, 105] : List Nat) ∈ [[72, 105]] ∧
    (embedOne [72, 105]).length = 1536 ∧
    ((SimpleEmbeddingFunction.generate [[72, 105]]).getD 0 []).getD 0 0 < 1000 :=
  ⟨by decide,
   (c9_embedding_properties [[72, 105]]).2.2.1 [72, 105] (by decide),
   (c9_embedding_properties [[72, 105]]).2.2.2.2 0 0⟩
